import Mathlib

/-
  Verification of the famous_trains DFPlayer-Mini controller.

  Shallow embedding of the repository's Python sources:
    * src/dfp_mini.py            — frame codec (CmdPackUnpack) and receive path (DfpMiniCh)
    * src/uart_os_as.py          — bounded FIFO Queue with data/space signals
    * src/command_handler_as.py  — CommandHandler send/receive paths
    * src/dfp_player.py          — DfPlayer facade (volume scaling)

  Machine integers are modelled as Nat/Int with explicit `% 2^w` where the
  Python code masks (`& 0xffff`) or where `struct.pack` fixes a field width.
  Python exceptions are modelled with `Except String`.
-/

namespace FamousTrains

/-! ## Frame codec — src/dfp_mini.py, class CmdPackUnpack

The codec keeps a mutable 8-field message `tx_message`, initialised from
`CMD_TEMPLATE = (0x7E, 0xFF, 0x06, 0x00, 0x01, 0x0000, 0x0000, 0xEF)` and
serialised with `struct.pack('>BBBBBHHB')` (big-endian; B = 1 byte, H = 2
bytes).  We model the 8 fields as a record; field order follows the source
comment "command: start-B, ver-B, len-B, cmd-B, fb-B, param-H, csum-H, end-B".
Index correspondence with the Python list: CMD_I = 3 ↦ `cmd`, PRM_I = 5 ↦
`param`, CSM_I = 6 ↦ `csum`. -/

structure TxMessage where
  start : Nat
  ver : Nat
  len : Nat
  cmd : Nat
  fb : Nat
  param : Nat
  csum : Nat
  endb : Nat   -- `end` is a Lean keyword; this is the final 0xEF byte
  deriving DecidableEq

def CMD_TEMPLATE : TxMessage :=
  ⟨0x7E, 0xFF, 0x06, 0x00, 0x01, 0x0000, 0x0000, 0xEF⟩

/-- `struct.pack('>BBBBBHHB', *fields)`: five single bytes, two big-endian
16-bit words (split hi/lo), one single byte — a 10-byte frame.
`struct.pack` range-checks its arguments; the `% 256` / 16-bit splits below
make the embedding total and are the identity on all in-range values the
program supplies. -/
def structPackMsg (m : TxMessage) : List Nat :=
  [m.start % 256, m.ver % 256, m.len % 256, m.cmd % 256, m.fb % 256,
   m.param / 256 % 256, m.param % 256,
   m.csum / 256 % 256, m.csum % 256,
   m.endb % 256]

/-- Python `(-s) & 0xffff` on an int: two's-complement reduction mod 2^16. -/
def negMod16 (s : Nat) : Nat := ((-(s : Int)) % 65536).toNat

/-- `CmdPackUnpack.check_checksum(bytes_)`: sums `bytes_[1:7]` (CSM_M = 7),
adds the big-endian 16-bit word at bytes 7–8, and tests
`checksum & 0xffff == 0`.  (`<< 8` is written `* 256`.) -/
def check_checksum (bytes_ : List Nat) : Bool :=
  (((bytes_.drop 1).take 6).sum + bytes_.getD 7 0 * 256 + bytes_.getD 8 0) % 65536 == 0

/-- `CmdPackUnpack.pack_tx_ba(command, parameter)`: writes `command` at
CMD_I and `parameter` at PRM_I, packs once, recomputes
`tx_message[CSM_I] = -sum(bytes_[1:7]) & 0xffff` from those packed bytes,
and packs again.  Returns the mutated `tx_message` and the emitted frame. -/
def pack_tx_ba (m : TxMessage) (command parameter : Nat) : TxMessage × List Nat :=
  let m1 : TxMessage := { m with cmd := command, param := parameter }
  let bytes_ := structPackMsg m1
  let m2 : TxMessage := { m1 with csum := negMod16 ((bytes_.drop 1).take 6).sum }
  (m2, structPackMsg m2)

/-- `CmdPackUnpack.unpack_rx_ba(bytes_)`: on a valid checksum,
`struct.unpack('>BBBBBHHB')` yields `rx_msg[CMD_I] = bytes_[3]` and
`rx_msg[PRM_I]` = big-endian word at bytes 5–6; on failure it prints a
diagnostic and returns `(0, 0)`. -/
def unpack_rx_ba (bytes_ : List Nat) : Nat × Nat :=
  if check_checksum bytes_ then
    (bytes_.getD 3 0, bytes_.getD 5 0 * 256 + bytes_.getD 6 0)
  else
    (0, 0)

/-- The opcode enumeration: keys of `CommandHandler.hex_str`
(src/command_handler_as.py) paired with their symbolic names. -/
def hexStrTable : List (Nat × String) :=
  [(0x01, "next"), (0x02, "prev"), (0x03, "track"), (0x04, "vol_inc"),
   (0x05, "vol_dec"), (0x06, "vol_set"), (0x07, "eq_set"), (0x08, "repeat_trk"),
   (0x0c, "reset"), (0x0d, "play"), (0x0e, "stop"), (0x0f, "folder_trk"),
   (0x11, "repeat_all"), (0x3a, "media_insert"), (0x3b, "media_remove"),
   (0x3d, "sd_fin"), (0x3f, "q_init"), (0x40, "error"), (0x41, "ack"),
   (0x42, "q_status"), (0x43, "q_vol"), (0x44, "q_eq"),
   (0x48, "q_sd_files"), (0x4c, "q_sd_trk")]

/-- The defined opcode values. -/
def opcodes : List Nat := hexStrTable.map (fun e => e.1)

lemma negMod16_lt (s : Nat) : negMod16 s < 65536 := by
  unfold negMod16; omega

lemma negMod16_add (s : Nat) : (s + negMod16 s) % 65536 = 0 := by
  unfold negMod16; omega

lemma opcodes_lt (c : Nat) (hc : c ∈ opcodes) : c < 256 := by
  have h : ∀ x ∈ opcodes, x < 256 := by decide
  exact h c hc

/-- The frame emitted by `pack_tx_ba`, written out byte by byte. -/
lemma pack_tx_ba_snd (m : TxMessage) (command parameter : Nat) :
    (pack_tx_ba m command parameter).2 =
      [m.start % 256, m.ver % 256, m.len % 256, command % 256, m.fb % 256,
       parameter / 256 % 256, parameter % 256,
       negMod16 (m.ver % 256 + (m.len % 256 + (command % 256 + (m.fb % 256 +
         (parameter / 256 % 256 + (parameter % 256 + 0)))))) / 256 % 256,
       negMod16 (m.ver % 256 + (m.len % 256 + (command % 256 + (m.fb % 256 +
         (parameter / 256 % 256 + (parameter % 256 + 0)))))) % 256,
       m.endb % 256] := by
  simp [pack_tx_ba, structPackMsg, List.sum_cons]

/-- Claim C1: for every opcode in the defined enumeration and every parameter
in [0, 0xFFFF], unpacking the 10-byte frame produced by `pack_tx_ba` passes
checksum verification and returns exactly `(opcode, parameter)` — from any
codec message state `m`. -/
theorem pack_unpack_roundtrip (m : TxMessage) (command parameter : Nat)
    (hc : command ∈ opcodes) (hp : parameter ≤ 0xFFFF) :
    unpack_rx_ba (pack_tx_ba m command parameter).2 = (command, parameter) := by
  have hc' : command < 256 := opcodes_lt command hc
  rw [pack_tx_ba_snd]
  set S := m.ver % 256 + (m.len % 256 + (command % 256 + (m.fb % 256 +
    (parameter / 256 % 256 + (parameter % 256 + 0))))) with hS
  have hlt : negMod16 S < 65536 := negMod16_lt S
  have hadd : (S + negMod16 S) % 65536 = 0 := negMod16_add S
  have hchk : check_checksum
      [m.start % 256, m.ver % 256, m.len % 256, command % 256, m.fb % 256,
       parameter / 256 % 256, parameter % 256,
       negMod16 S / 256 % 256, negMod16 S % 256, m.endb % 256] = true := by
    simp only [check_checksum, List.drop, List.take, List.sum_cons, List.sum_nil,
      List.getD_cons_zero, List.getD_cons_succ, beq_iff_eq]
    omega
  unfold unpack_rx_ba
  rw [hchk]
  simp only [if_true, List.getD_cons_zero, List.getD_cons_succ, Prod.mk.injEq]
  omega

/-- Witness for C1 at `opcode = 0x03 (track)`, `parameter = 15`. -/
theorem pack_unpack_roundtrip_witness :
    (0x03 ∈ opcodes) ∧ (15 ≤ 0xFFFF) ∧
      unpack_rx_ba (pack_tx_ba CMD_TEMPLATE 0x03 15).2 = (0x03, 15) :=
  ⟨by decide, by decide,
   pack_unpack_roundtrip CMD_TEMPLATE 0x03 15 (by decide) (by decide)⟩

/-- Claim C7: replacing any single byte at an offset among 1..8 of a validly
packed frame with a different byte value makes `check_checksum` fail (the
recomputed sum is nonzero modulo 0x10000), so `unpack_rx_ba` reports the
checksum error.  Offsets 1..6 shift the byte sum by a nonzero amount of
magnitude < 256; offsets 7..8 shift the 16-bit checksum word by a nonzero
amount of magnitude < 0x10000 — neither can cancel modulo 0x10000. -/
theorem checksum_detects_single_byte_change (m : TxMessage)
    (command parameter i b : Nat)
    (hc : command ∈ opcodes) (hp : parameter ≤ 0xFFFF)
    (hi1 : 1 ≤ i) (hi8 : i ≤ 8) (hb : b < 256)
    (hne : b ≠ (pack_tx_ba m command parameter).2.getD i 0) :
    check_checksum ((pack_tx_ba m command parameter).2.set i b) = false := by
  have hc' : command < 256 := opcodes_lt command hc
  rw [pack_tx_ba_snd] at hne ⊢
  set S := m.ver % 256 + (m.len % 256 + (command % 256 + (m.fb % 256 +
    (parameter / 256 % 256 + (parameter % 256 + 0))))) with hS
  have hlt : negMod16 S < 65536 := negMod16_lt S
  have hadd : (S + negMod16 S) % 65536 = 0 := negMod16_add S
  interval_cases i <;>
    (simp only [List.set_cons_zero, List.set_cons_succ, List.getD_cons_zero,
       List.getD_cons_succ, check_checksum, List.drop, List.take, List.sum_cons,
       List.sum_nil, beq_eq_false_iff_ne, ne_eq] at hne ⊢ <;> omega)

/-- Witness for C7: corrupting byte 3 (the opcode byte) of the frame for
`(0x03, 15)` from 0x03 to 0x04 is detected. -/
theorem checksum_detects_single_byte_change_witness :
    (0x03 ∈ opcodes) ∧ (15 ≤ 0xFFFF) ∧ (1 ≤ 3) ∧ (3 ≤ 8) ∧ (0x04 < 256) ∧
      (0x04 ≠ (pack_tx_ba CMD_TEMPLATE 0x03 15).2.getD 3 0) ∧
      check_checksum ((pack_tx_ba CMD_TEMPLATE 0x03 15).2.set 3 0x04) = false :=
  ⟨by decide, by decide, by decide, by decide, by decide, by decide,
   checksum_detects_single_byte_change CMD_TEMPLATE 0x03 15 3 0x04
     (by decide) (by decide) (by decide) (by decide) (by decide) (by decide)⟩

/-! ## Codec call histories (C10)

`CmdPackUnpack.__init__` sets `tx_message = list(CMD_TEMPLATE)`; each
`pack_tx_ba` call mutates the `cmd`, `param` and `csum` fields (indices 3, 5
and 6) and leaves the others untouched.  `codec_run` replays a history of
calls on a fresh instance. -/

/-- The codec's `tx_message` state after a sequence of `pack_tx_ba` calls on a
freshly constructed `CmdPackUnpack` instance. -/
def codec_run (calls : List (Nat × Nat)) : TxMessage :=
  calls.foldl (fun m cp => (pack_tx_ba m cp.1 cp.2).1) CMD_TEMPLATE

/-- The emitted frame depends only on the fields `pack_tx_ba` never writes
(start, ver, len, fb, end) plus the current arguments — in particular not on
the stale checksum field, which occupies no byte among the summed 1..6. -/
lemma pack_tx_ba_snd_congr (m m' : TxMessage) (c p : Nat)
    (h1 : m.start = m'.start) (h2 : m.ver = m'.ver) (h3 : m.len = m'.len)
    (h4 : m.fb = m'.fb) (h5 : m.endb = m'.endb) :
    (pack_tx_ba m c p).2 = (pack_tx_ba m' c p).2 := by
  rw [pack_tx_ba_snd, pack_tx_ba_snd, h1, h2, h3, h4, h5]

/-- `pack_tx_ba` only writes `cmd`, `param` and `csum`: the template bytes of
any reachable codec state are those of `CMD_TEMPLATE`. -/
lemma codec_run_fixed_fields (calls : List (Nat × Nat)) :
    (codec_run calls).start = 0x7E ∧ (codec_run calls).ver = 0xFF ∧
      (codec_run calls).len = 0x06 ∧ (codec_run calls).fb = 0x01 ∧
      (codec_run calls).endb = 0xEF := by
  suffices h : ∀ (l : List (Nat × Nat)) (m : TxMessage),
      m.start = 0x7E ∧ m.ver = 0xFF ∧ m.len = 0x06 ∧ m.fb = 0x01 ∧ m.endb = 0xEF →
      (l.foldl (fun m cp => (pack_tx_ba m cp.1 cp.2).1) m).start = 0x7E ∧
        (l.foldl (fun m cp => (pack_tx_ba m cp.1 cp.2).1) m).ver = 0xFF ∧
        (l.foldl (fun m cp => (pack_tx_ba m cp.1 cp.2).1) m).len = 0x06 ∧
        (l.foldl (fun m cp => (pack_tx_ba m cp.1 cp.2).1) m).fb = 0x01 ∧
        (l.foldl (fun m cp => (pack_tx_ba m cp.1 cp.2).1) m).endb = 0xEF by
    exact h calls CMD_TEMPLATE (by decide)
  intro l
  induction l with
  | nil => intro m hm; simpa using hm
  | cons hd tl ih =>
      intro m hm
      simp only [List.foldl_cons]
      exact ih _ (by simp [pack_tx_ba, hm.1, hm.2.1, hm.2.2.1, hm.2.2.2.1, hm.2.2.2.2])

/-- Claim C10: `pack_tx_ba` is deterministic and history-independent — for any
two call histories on fresh codec instances, packing the same
(command, parameter) pair yields the identical 10-byte frame, even though the
instance retains the previous call's checksum in its mutable template: the
checksum is recomputed over packed bytes 1..6, which the stale `csum` field
(serialised at bytes 7..8) never occupies. -/
theorem pack_tx_ba_history_independent (calls₁ calls₂ : List (Nat × Nat))
    (c p : Nat) :
    (pack_tx_ba (codec_run calls₁) c p).2 = (pack_tx_ba (codec_run calls₂) c p).2 := by
  obtain ⟨a1, a2, a3, a4, a5⟩ := codec_run_fixed_fields calls₁
  obtain ⟨b1, b2, b3, b4, b5⟩ := codec_run_fixed_fields calls₂
  exact pack_tx_ba_snd_congr _ _ c p (by rw [a1, b1]) (by rw [a2, b2])
    (by rw [a3, b3]) (by rw [a4, b4]) (by rw [a5, b5])

/-! ## Bounded FIFO queue — src/uart_os_as.py, class Queue

`Queue.__init__(max_len=1)` builds a circular deque of capacity `max_len`,
`_len = 0`, the `is_data` event cleared and the `is_space` event set.
`add_item` appends at the tail when there is room; `rmv_item` pops from the
head (`popleft`).  The two `asyncio.Event` signals are modelled as Bools. -/

structure Queue (α : Type) where
  max_len : Nat
  q : List α      -- deque contents, oldest item at the head
  _len : Nat
  is_data : Bool
  is_space : Bool
  deriving DecidableEq

/-- `Queue.__init__(max_len=1)`. -/
def Queue.init (α : Type) (maxLen : Nat := 1) : Queue α :=
  { max_len := maxLen, q := [], _len := 0, is_data := false, is_space := true }

/-- `Queue.add_item(item)`: append when `_len < max_len` (setting `is_data`
and incrementing `_len`); afterwards, clear `is_space` when `_len == max_len`. -/
def Queue.add_item (s : Queue α) (item : α) : Queue α :=
  let s1 := if s._len < s.max_len then
      { s with q := s.q ++ [item], is_data := true, _len := s._len + 1 }
    else s
  if s1._len == s1.max_len then { s1 with is_space := false } else s1

/-- `Queue.rmv_item()`: decrement `_len`, `popleft`, set `is_space`, and clear
`is_data` when the queue became empty; returns the removed item.  On an empty
deque `popleft` raises `IndexError` — modelled as `none` (the exception
propagates to the caller before an item is produced; the code comment assumes
`is_data` prevents removal from an empty queue). -/
def Queue.rmv_item (s : Queue α) : Option (Queue α × α) :=
  match s.q with
  | [] => none
  | item :: rest =>
      let s1 := { s with _len := s._len - 1, q := rest, is_space := true }
      some (if s1._len == 0 then { s1 with is_data := false } else s1, item)

/-- One queue operation: a push of an item, or a pop. -/
inductive QOp (α : Type) where
  | add (item : α)
  | rmv
  deriving DecidableEq

/-- Apply one operation (a failed `rmv_item` leaves the state unchanged — it
never happens under the `validOps` precondition below). -/
def Queue.step (s : Queue α) : QOp α → Queue α
  | .add item => s.add_item item
  | .rmv =>
      match s.rmv_item with
      | none => s
      | some (s1, _) => s1

/-- Apply a sequence of operations. -/
def Queue.run (s : Queue α) (ops : List (QOp α)) : Queue α :=
  ops.foldl Queue.step s

/-- The precondition of claim C3: `rmv_item` is only invoked while the
"data available" signal is set. -/
def Queue.validOps (s : Queue α) : List (QOp α) → Bool
  | [] => true
  | op :: rest =>
      (match op with
       | .add _ => true
       | .rmv => s.is_data) && (s.step op).validOps rest

/-- The queue invariant of claim C3 (for capacity ≥ 1): length bounded by the
capacity, `_len` counts the stored items, `is_data` ⇔ non-empty, and
`is_space` ⇔ not full. -/
def Queue.inv (s : Queue α) : Prop :=
  s._len ≤ s.max_len ∧ s._len = s.q.length ∧
    (s.is_data = true ↔ 0 < s._len) ∧ (s.is_space = true ↔ s._len < s.max_len)

lemma Queue.inv_init (α : Type) (N : Nat) (hN : 1 ≤ N) : (Queue.init α N).inv := by
  simp only [Queue.init, Queue.inv]
  refine ⟨by omega, rfl, by simp, by simp; omega⟩

lemma Queue.inv_add (s : Queue α) (item : α) (h : s.inv) : (s.add_item item).inv := by
  obtain ⟨mx, q, ln, d, sp⟩ := s
  obtain ⟨h1, h2, h3, h4⟩ := h
  simp only [Queue.inv, Queue.add_item] at *
  split_ifs with hlt hfull hfull <;>
    simp_all [List.length_append] <;> omega

/-- What a successful `rmv_item` does to each field. -/
lemma Queue.rmv_item_some_fields (s s1 : Queue α) (x : α)
    (h : s.rmv_item = some (s1, x)) :
    s.q = x :: s1.q ∧ s1.max_len = s.max_len ∧ s1._len = s._len - 1 ∧
      s1.is_space = true ∧
      s1.is_data = (if s._len - 1 = 0 then false else s.is_data) := by
  obtain ⟨mx, q, ln, d, sp⟩ := s
  cases q with
  | nil => cases h
  | cons y rest =>
      simp only [Queue.rmv_item] at h
      split_ifs at h with hz <;>
        simp only [Option.some.injEq, Prod.mk.injEq] at h <;>
        obtain ⟨hs1, hx⟩ := h <;> subst hs1 <;> subst hx <;>
        simp_all

lemma Queue.inv_rmv (s : Queue α) (s1 : Queue α) (item : α) (h : s.inv)
    (hd : s.is_data = true) (hr : s.rmv_item = some (s1, item)) : s1.inv := by
  obtain ⟨h1, h2, h3, h4⟩ := h
  obtain ⟨f1, f2, f3, f4, f5⟩ := Queue.rmv_item_some_fields s s1 item hr
  have hlen : 0 < s._len := h3.mp hd
  have hq : s.q.length = s1.q.length + 1 := by rw [f1]; rfl
  refine ⟨by omega, by omega, ?_, by simp [f4, f2]; omega⟩
  rw [f5, f3]
  split_ifs with hz
  · simp; omega
  · rw [h3]; omega

/-- A successful `rmv_item` is possible exactly on a non-empty deque. -/
lemma Queue.rmv_item_of_ne_nil (s : Queue α) (x : α) (rest : List α)
    (hq : s.q = x :: rest) : ∃ s1, s.rmv_item = some (s1, x) := by
  obtain ⟨mx, q, ln, d, sp⟩ := s
  simp only at hq
  subst hq
  simp only [Queue.rmv_item]
  split_ifs <;> exact ⟨_, rfl⟩

lemma Queue.step_max_len (s : Queue α) (op : QOp α) :
    (s.step op).max_len = s.max_len := by
  cases op with
  | add item =>
      obtain ⟨mx, q, ln, d, sp⟩ := s
      simp only [Queue.step, Queue.add_item]
      split_ifs <;> rfl
  | rmv =>
      rcases hr : s.rmv_item with _ | ⟨s1, x⟩
      · simp [Queue.step, hr]
      · simp only [Queue.step, hr]
        exact (Queue.rmv_item_some_fields s s1 x hr).2.1

lemma Queue.run_max_len (s : Queue α) (ops : List (QOp α)) :
    (s.run ops).max_len = s.max_len := by
  induction ops generalizing s with
  | nil => rfl
  | cons op rest ih =>
      rw [Queue.run, List.foldl_cons, ← Queue.run, ih, Queue.step_max_len]

lemma Queue.inv_run (s : Queue α) (ops : List (QOp α)) (h : s.inv)
    (hval : s.validOps ops = true) : (s.run ops).inv := by
  induction ops generalizing s with
  | nil => simpa [Queue.run] using h
  | cons op rest ih =>
      simp only [Queue.validOps, Bool.and_eq_true] at hval
      have hstep : (s.step op).inv := by
        cases op with
        | add item => exact Queue.inv_add s item h
        | rmv =>
            rcases hr : s.rmv_item with _ | ⟨s1, x⟩
            · simpa [Queue.step, hr] using h
            · simpa [Queue.step, hr] using Queue.inv_rmv s s1 x h hval.1 hr
      simpa [Queue.run, List.foldl_cons] using ih (s.step op) hstep hval.2

/-- Counterexample to claim C3 as stated: the claim quantifies over every
capacity `N`, but a queue constructed with capacity 0 starts with the
"space available" signal set although `length < N` is false — already after
the empty operation sequence the `is_space ⇔ length < N` conjunct fails. -/
theorem queue_invariant_counterexample :
    ((Queue.init Nat 0).run []).is_space = true ∧
      ¬ (((Queue.init Nat 0).run [])._len < ((Queue.init Nat 0).run []).max_len) := by
  constructor
  · rfl
  · decide

/-- Claim C3 (amended: capacity `N ≥ 1`): starting from the empty queue, for
any sequence of `add_item`/`rmv_item` operations in which `rmv_item` is only
invoked while "data available" is set, the resulting state satisfies
`0 ≤ length ≤ N`, `is_data ⇔ length > 0` and `is_space ⇔ length < N`; FIFO
order is preserved: `_len` counts the stored items and `rmv_item` returns the
oldest stored item (the head of the queue, adds appending at the tail). -/
theorem queue_invariant (α : Type) (N : Nat) (ops : List (QOp α))
    (hN : 1 ≤ N) (hval : (Queue.init α N).validOps ops = true) :
    ((Queue.init α N).run ops)._len ≤ N ∧
      ((Queue.init α N).run ops)._len = ((Queue.init α N).run ops).q.length ∧
      (((Queue.init α N).run ops).is_data = true ↔ 0 < ((Queue.init α N).run ops)._len) ∧
      (((Queue.init α N).run ops).is_space = true ↔ ((Queue.init α N).run ops)._len < N) ∧
      (∀ x rest, ((Queue.init α N).run ops).q = x :: rest →
        (((Queue.init α N).run ops).rmv_item).map Prod.snd = some x) := by
  have hinv := Queue.inv_run (Queue.init α N) ops (Queue.inv_init α N hN) hval
  have hmax : ((Queue.init α N).run ops).max_len = N :=
    Queue.run_max_len (Queue.init α N) ops
  obtain ⟨h1, h2, h3, h4⟩ := hinv
  rw [hmax] at h1 h4
  refine ⟨h1, h2, h3, h4, ?_⟩
  intro x rest hq
  obtain ⟨s1, hr⟩ := Queue.rmv_item_of_ne_nil ((Queue.init α N).run ops) x rest hq
  rw [hr]
  rfl

/-- Witness for C3 at `N = 1`, `ops = [add 7, rmv, add 9]` (final queue
content `[9]`, so the oldest-item conjunct is instantiated at `x = 9`). -/
theorem queue_invariant_witness :
    (1 ≤ 1) ∧ ((Queue.init Nat 1).validOps [.add 7, .rmv, .add 9] = true) ∧
      ((Queue.init Nat 1).run [.add 7, .rmv, .add 9])._len ≤ 1 ∧
      ((Queue.init Nat 1).run [.add 7, .rmv, .add 9])._len =
        ((Queue.init Nat 1).run [.add 7, .rmv, .add 9]).q.length ∧
      (((Queue.init Nat 1).run [.add 7, .rmv, .add 9]).is_data = true ↔
        0 < ((Queue.init Nat 1).run [.add 7, .rmv, .add 9])._len) ∧
      (((Queue.init Nat 1).run [.add 7, .rmv, .add 9]).is_space = true ↔
        ((Queue.init Nat 1).run [.add 7, .rmv, .add 9])._len < 1) ∧
      (((Queue.init Nat 1).run [.add 7, .rmv, .add 9]).rmv_item).map Prod.snd =
        some 9 := by
  have h := queue_invariant Nat 1 [.add 7, .rmv, .add 9] (by decide) (by decide)
  exact ⟨by decide, by decide, h.1, h.2.1, h.2.2.1, h.2.2.2.1,
    h.2.2.2.2 9 [] (by decide)⟩

/-- Claim C9: `rmv_item` fails (returns no frame) exactly on the empty queue,
and on a non-empty queue removes and returns the oldest item — the head of
the FIFO list, the rest remaining in order. -/
theorem rmv_item_oldest (α : Type) (s : Queue α) :
    (s.q = [] → s.rmv_item = none) ∧
      (∀ x rest, s.q = x :: rest →
        ∃ s1, s.rmv_item = some (s1, x) ∧ s1.q = rest) := by
  constructor
  · intro hq
    unfold Queue.rmv_item
    rw [hq]
  · intro x rest hq
    unfold Queue.rmv_item
    rw [hq]
    by_cases hz : s._len - 1 = 0 <;> simp [hz]

/-- Witness for C9: the empty branch on a fresh queue and the non-empty branch
on a one-element queue. -/
theorem rmv_item_oldest_witness :
    (Queue.init Nat 1).rmv_item = none ∧
      ∃ s1, (Queue.mk 1 [5] 1 true false : Queue Nat).rmv_item = some (s1, 5) ∧
        s1.q = [] :=
  ⟨(rmv_item_oldest Nat (Queue.init Nat 1)).1 rfl,
   (rmv_item_oldest Nat (Queue.mk 1 [5] 1 true false)).2 5 [] rfl⟩

/-! ## Receive path — src/dfp_mini.py, class DfpMiniCh

`consume_rx_data` pops a raw frame, unpacks it with `unpack_rx_ba`, stores the
result in `self.rx_cmd` / `self.rx_param`, and classifies it with
`evaluate_rx_message`.  The `asyncio.Event` signals and the in-memory config
dictionary are fields of the state record; the branches that `raise` are
modelled with `Except.error`. -/

structure DfpState where
  rx_cmd : Nat
  rx_param : Nat
  track_count : Nat
  track : Nat
  config_name : String
  config_vol_factor : Nat
  config_vol : Nat
  config_eq : String
  ack_ev : Bool
  track_end_ev : Bool
  error_ev : Bool
  deriving DecidableEq

/-- `DfpMiniCh.val_eq`: inverse of
`eq_val = {'normal': 0, 'pop': 1, 'rock': 2, 'jazz': 3, 'classic': 4, 'bass': 5}`;
a dictionary lookup outside the domain raises `KeyError`. -/
def val_eq (v : Nat) : Option String :=
  if v == 0 then some "normal"
  else if v == 1 then some "pop"
  else if v == 2 then some "rock"
  else if v == 3 then some "jazz"
  else if v == 4 then some "classic"
  else if v == 5 then some "bass"
  else none

/-- `DfpMiniCh.evaluate_rx_message(rx_cmd_, rx_param_)`: the elif chain in
src/dfp_mini.py lines 143–165.  `raise Exception(...)` branches become
`Except.error`; `print`-only branches are no-ops. -/
def evaluate_rx_message (s : DfpState) (rx_cmd_ rx_param_ : Nat) :
    Except String DfpState :=
  if rx_cmd_ == 0x41 then .ok { s with ack_ev := true }            -- ack
  else if rx_cmd_ == 0x3d then .ok { s with track_end_ev := true } -- sd track finished
  else if rx_cmd_ == 0x3f then                                     -- qry_init
    if (rx_param_ &&& 0x0002) != 0x0002 then
      .error "DFPlayer error: no SD-card?"
    else .ok s
  else if rx_cmd_ == 0x40 then .ok { s with error_ev := true }     -- error
  else if rx_cmd_ == 0x43 then .ok { s with config_vol := rx_param_ }  -- qry_vol
  else if rx_cmd_ == 0x44 then                                     -- qry_eq
    match val_eq rx_param_ with
    | some eq_str => .ok { s with config_eq := eq_str }
    | none => .error "KeyError"
  else if rx_cmd_ == 0x48 then .ok { s with track_count := rx_param_ } -- qry_sd_files
  else if rx_cmd_ == 0x4c then .ok { s with track := rx_param_ }   -- qry_sd_trk
  else if rx_cmd_ == 0x3a then .ok s                               -- media_insert (print)
  else if rx_cmd_ == 0x3b then .error "DFPlayer error: SD-card removed!" -- media_remove
  else .ok s

/-- One iteration of `DfpMiniCh.consume_rx_data` on a popped frame `ba_`:
`self.rx_cmd, self.rx_param = self.cmd_bytes.unpack_rx_ba(ba_)` followed by
`self.evaluate_rx_message(self.rx_cmd, self.rx_param)`. -/
def consume_rx_step (s : DfpState) (ba_ : List Nat) : Except String DfpState :=
  let cp := unpack_rx_ba ba_
  evaluate_rx_message { s with rx_cmd := cp.1, rx_param := cp.2 } cp.1 cp.2

/-- Counterexample to claim C2 as stated: take a state whose last-seen opcode
is 0x41 and a 10-byte frame with an invalid checksum.  The receive path does
not fail: it returns normally, and it overwrites the last-seen
opcode/parameter with `(0, 0)` — so "last-seen opcode/parameter ... unchanged"
is false. -/
theorem checksum_failure_state_counterexample :
    check_checksum [0x7E, 0xFF, 0x06, 0x41, 0x01, 0, 0, 0, 0, 0xEF] = false ∧
      consume_rx_step
        ⟨0x41, 0x1234, 10, 2, "DFPlayer Mini", 3, 15, "normal", false, false, false⟩
        [0x7E, 0xFF, 0x06, 0x41, 0x01, 0, 0, 0, 0, 0xEF] =
        .ok ⟨0, 0, 10, 2, "DFPlayer Mini", 3, 15, "normal", false, false, false⟩ ∧
      (0 : Nat) ≠ 0x41 := by
  refine ⟨by decide, ?_, by decide⟩
  rfl

/-- Claim C2 (amended): an inbound frame whose checksum does not verify is
discarded without raising: `unpack_rx_ba` prints a diagnostic and returns
`(0, 0)`, so `track_count`, `track`, the config record and the ack/track-end/
error signals are all unchanged — but the last-seen opcode/parameter fields
are overwritten with `(0, 0)` rather than left unchanged. -/
theorem checksum_failure_drops_frame (s : DfpState) (ba_ : List Nat)
    (hbad : check_checksum ba_ = false) :
    consume_rx_step s ba_ = .ok { s with rx_cmd := 0, rx_param := 0 } := by
  unfold consume_rx_step unpack_rx_ba
  rw [hbad]
  rfl

/-- Witness for C2 (amended) on the concrete bad frame of the counterexample's
shape but applied at another state. -/
theorem checksum_failure_drops_frame_witness :
    check_checksum [0x7E, 0xFF, 0x06, 0x3d, 0x01, 0, 5, 0, 0, 0xEF] = false ∧
      consume_rx_step
        ⟨0x43, 7, 4, 1, "DFPlayer Mini", 3, 12, "rock", true, true, false⟩
        [0x7E, 0xFF, 0x06, 0x3d, 0x01, 0, 5, 0, 0, 0xEF] =
        .ok ⟨0, 0, 4, 1, "DFPlayer Mini", 3, 12, "rock", true, true, false⟩ :=
  ⟨by decide,
   checksum_failure_drops_frame
     ⟨0x43, 7, 4, 1, "DFPlayer Mini", 3, 12, "rock", true, true, false⟩
     [0x7E, 0xFF, 0x06, 0x3d, 0x01, 0, 5, 0, 0, 0xEF] (by decide)⟩

/-! ## Command handler — src/command_handler_as.py, class CommandHandler

`hex_str` is the opcode→name dictionary (the table `hexStrTable` above) and
`str_hex` its inverse; both lookups raise `KeyError` outside their domain.
The module `hex_fns` is imported but absent from the sources, so its two
helpers are modelled from the spec. -/

/-- `hex_str[n]`: opcode value → symbolic name. -/
def hex_str (n : Nat) : Option String :=
  (hexStrTable.find? (fun e => e.1 == n)).map (fun e => e.2)

/-- `str_hex[name]`: symbolic name → opcode value (the dictionary values are
pairwise distinct, so the inversion is exact). -/
def str_hex (name : String) : Option Nat :=
  (hexStrTable.find? (fun e => e.2 == name)).map (fun e => e.1)

/-- `play_set_str`: names of the play-triggering commands. -/
def play_set_str : List String :=
  ["play", "next", "prev", "track", "folder_trk", "repeat_trk", "repeat_all"]

/-- `play_set`: the class body seeds a set with `{0}`, adds `str_hex[name]`
for each name in `play_set_str` (all present in the table), and removes the
seed 0 again — leaving exactly the opcode values of `play_set_str`. -/
def play_set : List Nat := play_set_str.filterMap str_hex

/-- Modelled from the spec: `hex_fns.slice_reg16` is imported from a module
missing from the sources.  Per the spec's wire format, 16-bit fields are
big-endian and the checksum is the two's complement of the byte sum reduced
mod 0x10000: the value is masked to 16 bits and split into (msb, lsb). -/
def slice_reg16 (n : Int) : Nat × Nat :=
  let v := (n % 65536).toNat
  (v / 256, v % 256)

/-- Modelled from the spec: `hex_fns.set_reg16` is imported from a module
missing from the sources.  Per the spec's wire format it joins (msb, lsb)
into a big-endian 16-bit value. -/
def set_reg16 (msb lsb : Nat) : Nat := msb * 256 + lsb

/-- CommandHandler state: the 10-byte `tx_word` buffer, the derived fields the
receive path mutates, the three `asyncio.Event` signals, and the list of
frames written to the UART (`stream.sender`) in order. -/
structure ChState where
  tx_word : List Nat
  rx_cmd : Nat
  rx_param : Nat
  track_count : Nat
  current_track : Nat
  prev_track : Nat   -- attribute first created by the 0x3d branch
  volume : Nat       -- attribute first created by the 0x43 branch
  ack_ev : Bool
  track_end_ev : Bool
  error_ev : Bool
  tx_log : List (List Nat)
  deriving DecidableEq

/-- `CommandHandler.get_checksum()`: `hex_f.slice_reg16(-sum(self.tx_word[1:7]))`. -/
def get_checksum (tx_word : List Nat) : Nat × Nat :=
  slice_reg16 (-(((tx_word.drop 1).take 6).sum : Int))

/-- `CommandHandler.send_command(cmd_str, param=0)` up to and including the
`stream.sender` write (the subsequent `await self.ack_ev.wait()` suspends
without further state change, so the returned state is both the state at
transmission time and at resumption): clear `ack_ev`, look up the opcode
(KeyError outside the table), fill CMD (index 3), the parameter bytes
(indices 5–6) and the checksum bytes (indices 7–8) of `tx_word`, clear
`track_end_ev` when the opcode is in `play_set`, then write `tx_word` to the
wire. -/
def send_command (s : ChState) (cmd_str : String) (param : Nat) :
    Except String ChState :=
  let s0 := { s with ack_ev := false }
  match str_hex cmd_str with
  | none => .error "KeyError"
  | some cmd_hex =>
      let tx1 := s0.tx_word.set 3 cmd_hex
      let pp := slice_reg16 (param : Int)
      let tx2 := (tx1.set 5 pp.1).set 6 pp.2
      let cc := get_checksum tx2
      let tx3 := (tx2.set 7 cc.1).set 8 cc.2
      let s1 := { s0 with tx_word := tx3 }
      let s2 := if cmd_hex ∈ play_set then { s1 with track_end_ev := false } else s1
      .ok { s2 with tx_log := s2.tx_log ++ [tx3] }

/-- `parse_rx_message(message_)` (inner function of
`CommandHandler.consume_rx_data`): look the opcode up in `hex_str` and back
through `str_hex` (KeyError outside the table), join the parameter bytes,
run the elif chain (which reads the PREVIOUS `self.rx_param` in the 0x3d,
0x43, 0x48 and 0x4c branches, since `self.rx_param` is only assigned after
the chain), and finally record the received opcode/parameter. -/
def parse_rx_message (s : ChState) (message_ : List Nat) : Except String ChState :=
  match hex_str (message_.getD 3 0) with
  | none => .error "KeyError"
  | some rx_str_cmd =>
      match str_hex rx_str_cmd with
      | none => .error "KeyError"
      | some rx_cmd =>
          let rx_param := set_reg16 (message_.getD 5 0) (message_.getD 6 0)
          let core : Except String ChState :=
            if rx_cmd == 0x41 then .ok { s with ack_ev := true }
            else if rx_cmd == 0x3d then
              .ok { s with prev_track := s.rx_param, track_end_ev := true }
            else if rx_cmd == 0x3f then
              if rx_param != 0x0002 then .error "DFPlayer error: no SD card?"
              else .ok s
            else if rx_cmd == 0x40 then .ok { s with error_ev := true }
            else if rx_cmd == 0x43 then .ok { s with volume := s.rx_param }
            else if rx_cmd == 0x48 then .ok { s with track_count := s.rx_param }
            else if rx_cmd == 0x4c then .ok { s with current_track := s.rx_param }
            else if rx_cmd == 0x3a then .ok s
            else if rx_cmd == 0x3b then .error "DFPlayer error: SD card removed!"
            else .ok s
          core.map (fun s1 => { s1 with rx_cmd := rx_cmd, rx_param := rx_param })

/-- Claim C5: `send_command` with a command whose opcode is in the
play-triggering set `{play, next, prev, track, folder_trk, repeat_trk,
repeat_all}` clears the track-end signal before the frame is written to the
wire (the returned state is the state at transmission; nothing later touches
the signal); for any other command the track-end signal is unchanged. -/
theorem send_command_track_end (s : ChState) (cmd_str : String) (param : Nat)
    (cmd_hex : Nat) (hcmd : str_hex cmd_str = some cmd_hex) :
    ∃ s1, send_command s cmd_str param = .ok s1 ∧
      (cmd_hex ∈ play_set → s1.track_end_ev = false) ∧
      (cmd_hex ∉ play_set → s1.track_end_ev = s.track_end_ev) ∧
      s1.tx_log = s.tx_log ++ [s1.tx_word] := by
  unfold send_command
  rw [hcmd]
  by_cases hmem : cmd_hex ∈ play_set
  · refine ⟨_, rfl, fun _ => ?_, fun h => absurd hmem h, ?_⟩ <;> simp [hmem]
  · refine ⟨_, rfl, fun h => absurd h hmem, fun _ => ?_, ?_⟩ <;> simp [hmem]

/-- Witness for C5: the play-triggering command "play" (0x0d) from a state
whose track-end signal is set, and by the same theorem the non-triggering
command "stop" (0x0e) leaving it set. -/
theorem send_command_track_end_witness :
    (str_hex "play" = some 0x0d) ∧
      (∃ s1, send_command
          ⟨[0x7E, 0xFF, 0x06, 0, 0x01, 0, 0, 0, 0, 0xEF], 0, 0, 0, 0, 0, 0,
            false, true, false, []⟩ "play" 0 = .ok s1 ∧
        (0x0d ∈ play_set → s1.track_end_ev = false) ∧
        (0x0d ∉ play_set → s1.track_end_ev =
          (⟨[0x7E, 0xFF, 0x06, 0, 0x01, 0, 0, 0, 0, 0xEF], 0, 0, 0, 0, 0, 0,
            false, true, false, []⟩ : ChState).track_end_ev) ∧
        s1.tx_log = [] ++ [s1.tx_word]) :=
  ⟨by decide,
   send_command_track_end
     ⟨[0x7E, 0xFF, 0x06, 0, 0x01, 0, 0, 0, 0, 0xEF], 0, 0, 0, 0, 0, 0,
       false, true, false, []⟩ "play" 0 0x0d (by decide)⟩

/-- Does an `Except` computation fail? -/
def isErr {ε σ : Type} (e : Except ε σ) : Bool :=
  match e with
  | .error _ => true
  | .ok _ => false

/-- Counterexample to claim C6 as stated: a `query_init` (0x3F) frame whose
parameter 0x0003 includes the storage-present bit 0x0002 — yet the
`command_handler_as` receive-classification path raises the storage-absent
error, because it compares the parameter with 0x0002 for equality instead of
testing the bit. -/
theorem query_init_counterexample :
    ((0x0003 : Nat) &&& 0x0002 = 0x0002) ∧
      parse_rx_message
        ⟨[0x7E, 0xFF, 0x06, 0, 0x01, 0, 0, 0, 0, 0xEF], 0, 0, 0, 0, 0, 0,
          false, false, false, []⟩
        [0x7E, 0xFF, 0x06, 0x3f, 0x01, 0x00, 0x03, 0, 0, 0xEF] =
        .error "DFPlayer error: no SD card?" := by
  constructor
  · decide
  · rfl

/-- Claim C6 (amended): the `dfp_mini` receive path (`evaluate_rx_message`)
raises the storage-absent error on a `query_init` (0x3F) frame if and only if
the parameter bitmask does not include bit 0x0002; the `command_handler_as`
path (`parse_rx_message`) instead raises if and only if the parameter differs
from 0x0002 exactly — so there a parameter including the bit (e.g. 0x0003)
still raises. -/
theorem query_init_storage_check (s1 : DfpState) (s2 : ChState)
    (p hi lo : Nat) :
    (isErr (evaluate_rx_message s1 0x3f p) = decide (p &&& 0x0002 ≠ 0x0002)) ∧
      (isErr (parse_rx_message s2 [0x7E, 0xFF, 0x06, 0x3f, 0x01, hi, lo, 0, 0, 0xEF]) =
        decide (set_reg16 hi lo ≠ 0x0002)) := by
  constructor
  · unfold evaluate_rx_message
    by_cases hbit : p &&& 0x0002 = 0x0002 <;> simp [hbit, isErr]
  · unfold parse_rx_message
    have h1 : hex_str 0x3f = some "q_init" := by decide
    have h2 : str_hex "q_init" = some 0x3f := by decide
    simp only [List.getD_cons_zero, List.getD_cons_succ, h1, h2]
    by_cases heq : set_reg16 hi lo = 0x0002 <;> simp [heq, isErr, Except.map]

/-! ## Player facade — src/dfp_player.py, class DfPlayer (claim C8)

`DfPlayer.set_vol(level_)` changes `self.vol` and calls `update_vol`, which
stores `vol * vol_factor` into the handler's config and then runs
`await self.command_h.set_vol()` — with NO argument.  The claim's command
handler, `DfpMiniControl.set_vol(self, level)` (src/dfp_mini.py lines
217–220), requires the `level` positional argument, so the call raises
`TypeError` before any frame is sent. -/

/-- Combined facade + handler state for the volume path.  `tx_log` records
the `(command, parameter)` pairs passed to `DfpMiniCh._send_command`. -/
structure PlayerState where
  vol : Nat
  vol_factor : Nat
  config_vol : Nat
  tx_log : List (Nat × Nat)
  deriving DecidableEq

/-- `DfpMiniControl.set_vol(level)`: sends command 0x06 with parameter
`level`, then records `level` in the config.  (What `update_vol` would have
had to call with the scaled level.) -/
def dfpMiniControl_set_vol (s : PlayerState) (level : Nat) : PlayerState :=
  { s with tx_log := s.tx_log ++ [(0x06, level)], config_vol := level }

/-- `DfPlayer.update_vol()`: stores `self.vol * self.vol_factor` into the
handler config, then evaluates `self.command_h.set_vol()`.
`DfpMiniControl.set_vol` takes a required `level` parameter, so the
argument-less call raises `TypeError` before any command is sent. -/
def dfPlayer_update_vol (s : PlayerState) : Except String PlayerState :=
  let s1 := { s with config_vol := s.vol * s.vol_factor }
  let _unsendable := fun (level : Nat) => dfpMiniControl_set_vol s1 level
  .error "TypeError: set_vol() missing 1 required positional argument: level"

/-- `DfPlayer.set_vol(level_)`: when the level changes, update `self.vol` and
run `update_vol`. -/
def dfPlayer_set_vol (s : PlayerState) (level_ : Nat) : Except String PlayerState :=
  if s.vol != level_ then dfPlayer_update_vol { s with vol := level_ } else .ok s

/-- Claim C8 evaluated at the failing input (code_bug): with `vol_factor = 3`
and current facade volume 4 ≠ 5, `set_vol 5` does not result in the device
receiving `vol_set 15` — the argument-less `command_h.set_vol()` call raises
`TypeError` and no command is transmitted (the wire log stays empty).  Had
the scaled level been passed, `DfpMiniControl.set_vol 15` would indeed have
sent `(0x06, 15)` and stored 15, reading back as `15 / 3 = 5`. -/
theorem facade_set_vol_type_error :
    dfPlayer_set_vol ⟨4, 3, 12, []⟩ 5 =
        .error "TypeError: set_vol() missing 1 required positional argument: level" ∧
      (dfpMiniControl_set_vol ⟨5, 3, 12, []⟩ 15).tx_log = [(0x06, 15)] ∧
      (dfpMiniControl_set_vol ⟨5, 3, 12, []⟩ 15).config_vol / 3 = 5 := by
  refine ⟨rfl, rfl, rfl⟩

end FamousTrains
